import Mathlib

/-
Verification development for the call-signaling subsystem of the
Fullstack-chat-VC-app repository.

The embedding covers:
  * the server-side presence registry and signaling relay
    (the socket server: userSocketMap, io.on connection handlers);
  * the client-side call store (useAuthStore.js: callUser, answerCall,
    endCall, rejectCall, the socket receive handlers, the 15s timeout);
  * the VideoCall component (VideoCall.jsx: media acquisition and
    handleMediaError, handleReconnection, connection-state handlers,
    the incoming ice-candidate handler, handleEndCall) together with the
    HomePage conditional render that mounts it.

State is modelled explicitly; side effects (socket.emit, toast notices,
setTimeout arming) are returned as explicit effect lists.  UI-only fields
that no client logic reads (isLoadingMedia, deviceErrors, micMuted,
cameraOff, callDuration, networkQuality, remoteStream) are omitted.
-/

namespace ChatVC

/-! ## Server: presence registry (socket server, userSocketMap)

`userSocketMap` is a plain JS object mapping userId to socket id.  We model
it as an association list with object semantics: assignment replaces any
existing binding, `delete` removes the binding if present. -/

/-- The `userSocketMap` object: userId to socketId. -/
abbrev RegMap := List (String × String)

/-- JS property read `m[k]` (undefined becomes `none`). -/
def mapLookup : RegMap → String → Option String
  | [], _ => none
  | (k, v) :: rest, u => if k = u then some v else mapLookup rest u

/-- JS `delete m[k]`. -/
def mapErase : RegMap → String → RegMap
  | [], _ => []
  | (k, v) :: rest, u => if k = u then mapErase rest u else (k, v) :: mapErase rest u

/-- JS assignment `m[k] = v` (overwrites any previous binding for `k`). -/
def mapInsert (m : RegMap) (k v : String) : RegMap :=
  (k, v) :: mapErase m k

/-- A presence event at the socket server.  On `io.on("connection")` the
server reads `userId` from the handshake query and, when it is truthy,
stores `userSocketMap[userId] = socket.id`.  On `socket.on("disconnect")`
it runs `delete userSocketMap[userId]` with the `userId` captured at
connection time; when that `userId` was undefined the JS property key is
the string "undefined". -/
inductive PresenceEvent where
  | connect (userId : Option String) (socketId : String)
  | disconnect (userId : Option String)
deriving DecidableEq

/-- One presence event applied to `userSocketMap`, as the connection and
disconnect handlers do. -/
def applyPresence (m : RegMap) : PresenceEvent → RegMap
  | .connect (some u) sid => mapInsert m u sid
  | .connect none _ => m
  | .disconnect (some u) => mapErase m u
  | .disconnect none => mapErase m "undefined"

/-- The registry after a sequence of connect/disconnect events. -/
def runPresence (m : RegMap) (es : List PresenceEvent) : RegMap :=
  es.foldl applyPresence m

/-- Most-recent-event view of one identity `u`: the accumulator is
replaced by the endpoint of a register for `u`, cleared by an unregister
for `u`, and untouched by events for other identities. -/
def presenceStep (u : String) (acc : Option String) : PresenceEvent → Option String
  | .connect (some v) sid => if v = u then some sid else acc
  | .connect none _ => acc
  | .disconnect (some v) => if v = u then none else acc
  | .disconnect none => if "undefined" = u then none else acc

/-- Lookup of `u` predicted from the event history alone: the endpoint of
the most recent register for `u`, absent if the most recent event
affecting `u` was an unregister, starting from `dflt`. -/
def recentLookup (u : String) (es : List PresenceEvent) (dflt : Option String) : Option String :=
  es.foldl (presenceStep u) dflt

/-! ## Server: signaling relay (io.on connection message handlers) -/

/-- Wire messages a client emits to the server. -/
inductive SrvIn where
  | callUser (userToCall signalData fromId name : String)
  | answerCall (toId signal : String)
  | iceCandidate (toId candidate : String)
  | endCall (toId : String)
  | rejectCall (toId : String)
deriving DecidableEq

/-- Wire messages the server emits to a socket. -/
inductive SrvOut where
  | callUser (signal fromId name : String)
  | callAccepted (signal : String)
  | iceCandidate (candidate : String)
  | callEnded
  | callRejected
  | callFailed (reason : String)
deriving DecidableEq

/-- The relay: each handler looks the target up in `userSocketMap` and
forwards to that socket when present.  Only the `callUser` handler has an
offline branch, which emits `callFailed` back to the sender socket; the
other four handlers have no `else` branch and so emit nothing when the
target is absent. -/
def route (m : RegMap) (senderSid : String) : SrvIn → List (String × SrvOut)
  | .callUser utc sig f n =>
      match mapLookup m utc with
      | some sid => [(sid, SrvOut.callUser sig f n)]
      | none => [(senderSid, SrvOut.callFailed "User is offline")]
  | .answerCall t sig =>
      match mapLookup m t with
      | some sid => [(sid, SrvOut.callAccepted sig)]
      | none => []
  | .iceCandidate t c =>
      match mapLookup m t with
      | some sid => [(sid, SrvOut.iceCandidate c)]
      | none => []
  | .endCall t =>
      match mapLookup m t with
      | some sid => [(sid, SrvOut.callEnded)]
      | none => []
  | .rejectCall t =>
      match mapLookup m t with
      | some sid => [(sid, SrvOut.callRejected)]
      | none => []

/-! ## Client store (useAuthStore.js, call slice) -/

/-- The `caller` object of the store; `none` models the empty object
(so `caller.from` is falsy).  The source field `from` is a Lean keyword
and is embedded as `fromId`. -/
structure Caller where
  fromId : String
  name : String
deriving DecidableEq

/-- Wire messages the client emits (`socket.emit`). -/
inductive WireOut where
  | callUser (userToCall signalData fromId name : String)
  | answerCall (signal toId : String)
  | iceCandidate (candidate toId : String)
  | endCall (toId : String)
  | rejectCall (toId : String)
deriving DecidableEq

/-- A client-side effect: a socket emission, a toast notice, or the
arming of a `setTimeout` with the given delay in milliseconds. -/
inductive Eff where
  | emit (w : WireOut)
  | toast (msg : String)
  | schedule (ms : Nat)
deriving DecidableEq

/-- The call-related slice of the zustand store.  `socket = true` models a
non-null connected socket object; `authUser` is `(_id, fullName)` when
logged in. -/
structure AuthStore where
  socket : Bool
  authUser : Option (String × String)
  callAccepted : Bool
  callEnded : Bool
  caller : Option Caller
  receivingCall : Bool
  callSignal : Option String
deriving DecidableEq

namespace AuthStore

/-- Store action `endCall`: emits `endCall` to `caller.from` when a socket
and a caller are present, then resets the call state. -/
def endCall (s : AuthStore) : AuthStore × List Eff :=
  let effs : List Eff :=
    match s.caller with
    | some c => if s.socket then [Eff.emit (WireOut.endCall c.fromId)] else []
    | none => []
  ({ s with callEnded := true, callAccepted := false, receivingCall := false,
            caller := none, callSignal := none }, effs)

/-- Store action `callUser`: when a socket and an authUser exist, emits
`callUser`, records the target as `caller`, and arms the 15000 ms
answer timeout. -/
def callUser (s : AuthStore) (userToCall signalData name : String) : AuthStore × List Eff :=
  match s.authUser with
  | some (uid, uname) =>
      if s.socket then
        ({ s with caller := some ⟨userToCall, name⟩, receivingCall := false,
                  callSignal := some signalData },
         [Eff.emit (WireOut.callUser userToCall signalData uid uname), Eff.schedule 15000])
      else (s, [])
  | none => (s, [])

/-- The body of the 15-second `setTimeout` armed by `callUser`: if the
call is neither accepted nor ended, show the toast and run `endCall`. -/
def callTimeout (s : AuthStore) : AuthStore × List Eff :=
  if !s.callAccepted && !s.callEnded then
    let r := endCall s
    (r.1, Eff.toast "Call not answered" :: r.2)
  else (s, [])

/-- Store action `answerCall`: guarded by `socket && caller.from`. -/
def answerCall (s : AuthStore) (signal : String) : AuthStore × List Eff :=
  match s.caller with
  | some c =>
      if s.socket then
        ({ s with callAccepted := true }, [Eff.emit (WireOut.answerCall signal c.fromId)])
      else (s, [])
  | none => (s, [])

/-- Store action `sendIceCandidate`. -/
def sendIceCandidate (s : AuthStore) (candidate toId : String) : AuthStore × List Eff :=
  if s.socket then (s, [Eff.emit (WireOut.iceCandidate candidate toId)]) else (s, [])

/-- Store action `rejectCall`: guarded by `socket && caller.from`; emits
`rejectCall` and clears the incoming-call fields.  Note it does not set
`callEnded`. -/
def rejectCall (s : AuthStore) : AuthStore × List Eff :=
  match s.caller with
  | some c =>
      if s.socket then
        ({ s with receivingCall := false, caller := none, callSignal := none },
         [Eff.emit (WireOut.rejectCall c.fromId)])
      else (s, [])
  | none => (s, [])

/-- Socket receive handler `socket.on("callUser")`: an incoming invite. -/
def onCallUser (s : AuthStore) (fromId name signal : String) : AuthStore :=
  { s with receivingCall := true, caller := some ⟨fromId, name⟩,
           callSignal := some signal, callAccepted := false, callEnded := false }

/-- Socket receive handler `socket.on("callAccepted")`. -/
def onCallAccepted (s : AuthStore) (signal : String) : AuthStore :=
  { s with callAccepted := true, callSignal := some signal }

/-- Socket receive handler `socket.on("callEnded")`. -/
def onCallEnded (s : AuthStore) : AuthStore :=
  { s with callEnded := true, callAccepted := false, receivingCall := false,
           caller := none, callSignal := none }

end AuthStore

/-- The HomePage conditional render: the VideoCall component is mounted
exactly when `receivingCall || (callAccepted && !callEnded)`. -/
def videoCallRendered (s : AuthStore) : Bool :=
  s.receivingCall || (s.callAccepted && !s.callEnded)

/-! ## VideoCall component (VideoCall.jsx) -/

/-- The `callStatus` state values. -/
inductive CallStatus where
  | idle | connecting | connected | disconnected | failed
deriving DecidableEq

/-- The object stored by `setMediaError`: a message and a `canRetry` flag. -/
structure MediaErrorInfo where
  message : String
  canRetry : Bool
deriving DecidableEq

/-- The `getUserMedia` constraints used by the component: the defaults
`(video: true, audio: true)`, or the relaxed low-quality set
`(video 640x480 at 15fps, audio with echoCancellation and
noiseSuppression)` used by the automatic overconstrained retry. -/
inductive MediaConstraints where
  | defaults
  | relaxed
deriving DecidableEq

/-- Error names dispatched on by `handleMediaError` (`error.name`, or the
thrown `Error("BROWSER_NOT_SUPPORTED")` message). -/
inductive MediaErrName where
  | NotAllowedError | PermissionDeniedError
  | NotFoundError | DevicesNotFoundError
  | NotReadableError | TrackStartError
  | OverconstrainedError | ConstraintNotSatisfiedError
  | NotSupportedError
  | TypeError
  | BrowserNotSupported
  | other (msg : String)
deriving DecidableEq

/-- Component-internal effects: arming the 1000 ms overconstrained-retry
`setTimeout` with the given constraints, the awaited reconnection wait,
or an invocation of `handleEndCall`.  (`endTheCall` is produced by the UI
buttons only; the transport-state handlers never produce it.) -/
inductive CompEff where
  | scheduleRetry (ms : Nat) (c : MediaConstraints)
  | wait (ms : Nat)
  | endTheCall
deriving DecidableEq

/-- The VideoCall component state relevant to the claims.  `localStream`
means a MediaStream with live tracks is held; `peerConnection` means an
open RTCPeerConnection is held; the two ref-based timers are modelled as
pending flags. -/
structure VideoCallComp where
  localStream : Bool
  peerConnection : Bool
  mediaError : Option MediaErrorInfo
  connectionError : Option String
  socketError : Option String
  permissionDenied : Bool
  retryAttempts : Nat
  callStatus : CallStatus
  isReconnecting : Bool
  reconnectTimeoutPending : Bool
  statsIntervalRunning : Bool
deriving DecidableEq

/-- The initial `useState` values of the component. -/
def initComp : VideoCallComp :=
  { localStream := false, peerConnection := false, mediaError := none,
    connectionError := none, socketError := none, permissionDenied := false,
    retryAttempts := 0, callStatus := CallStatus.idle, isReconnecting := false,
    reconnectTimeoutPending := false, statsIntervalRunning := false }

/-- Constant `MAX_RETRY_ATTEMPTS` of VideoCall.jsx. -/
def MAX_RETRY_ATTEMPTS : Nat := 3

/-- Function `handleMediaError`: classifies a media-acquisition failure by its
error name, sets `mediaError` (and `permissionDenied` for permission
errors), and for overconstrained errors below the retry bound arms a
1000 ms retry with the relaxed constraints. -/
def handleMediaError (s : VideoCallComp) (e : MediaErrName) : VideoCallComp × List CompEff :=
  match e with
  | .NotAllowedError | .PermissionDeniedError =>
      ({ s with permissionDenied := true,
                mediaError := some ⟨"Camera and microphone access denied. Please allow permissions in your browser settings and refresh the page.", false⟩ }, [])
  | .NotFoundError | .DevicesNotFoundError =>
      ({ s with mediaError := some ⟨"No camera or microphone found. Please connect your devices and try again.", true⟩ }, [])
  | .NotReadableError | .TrackStartError =>
      ({ s with mediaError := some ⟨"Camera or microphone is already in use by another application. Please close other applications and try again.", true⟩ }, [])
  | .OverconstrainedError | .ConstraintNotSatisfiedError =>
      if s.retryAttempts < MAX_RETRY_ATTEMPTS then
        ({ s with mediaError := some ⟨"Camera/microphone constraints cannot be satisfied. Trying with lower quality...", true⟩ },
         [CompEff.scheduleRetry 1000 MediaConstraints.relaxed])
      else
        ({ s with mediaError := some ⟨"Failed to get media with available constraints after multiple attempts.", false⟩ }, [])
  | .NotSupportedError =>
      ({ s with mediaError := some ⟨"Media constraints are not supported by this browser. Please update your browser.", false⟩ }, [])
  | .TypeError =>
      ({ s with mediaError := some ⟨"Invalid media constraints. Please refresh the page and try again.", true⟩ }, [])
  | .BrowserNotSupported =>
      ({ s with mediaError := some ⟨"Your browser doesn\x27t support video calling. Please use a modern browser like Chrome, Firefox, or Safari.", false⟩ }, [])
  | .other msg =>
      ({ s with mediaError := some ⟨"Media access error: " ++ msg ++ ". Please check your device permissions and try again.", true⟩ }, [])

/-- The body of the 1000 ms retry `setTimeout`: `setRetryAttempts(prev => prev + 1)`
before `getMediaWithErrorHandling` runs with the relaxed constraints. -/
def runRetryCallback (s : VideoCallComp) : VideoCallComp :=
  { s with retryAttempts := s.retryAttempts + 1 }

/-- Function `getMediaWithErrorHandling`: clears `mediaError` and `permissionDenied`,
then either acquires the stream (setting `localStream` and
`callStatus = connected`) or, on failure `e`, sets `callStatus = failed`
and dispatches to `handleMediaError`.  `outcome = none` is success. -/
def getMediaWithErrorHandling (s : VideoCallComp) (outcome : Option MediaErrName) :
    VideoCallComp × List CompEff :=
  let s0 := { s with mediaError := none, permissionDenied := false }
  match outcome with
  | none => ({ s0 with localStream := true, callStatus := CallStatus.connected }, [])
  | some e => handleMediaError { s0 with callStatus := CallStatus.failed } e

/-- The synchronous prefix of `handleReconnection`, up to the awaited
2000 ms wait: guarded by `isReconnecting`, sets the connection-lost
notice, clears any pending reconnect timeout, and awaits 2000 ms. -/
def handleReconnectionStart (s : VideoCallComp) : VideoCallComp × List CompEff :=
  if s.isReconnecting then (s, [])
  else
    ({ s with isReconnecting := true,
              connectionError := some "Connection lost. Attempting to reconnect...",
              reconnectTimeoutPending := false },
     [CompEff.wait 2000])

/-- The continuation of `handleReconnection` after the 2000 ms wait:
re-checks the socket, re-acquires local media when it was lost
(`mediaOutcome` is that attempt's result), then clears the connection
error and reports `connected`; `isReconnecting` is reset in `finally`. -/
def handleReconnectionResume (s : VideoCallComp) (socketConnected : Bool)
    (mediaOutcome : Option MediaErrName) : VideoCallComp × List CompEff :=
  if socketConnected = false then
    ({ s with socketError := some "Socket disconnected. Please refresh the page.",
              isReconnecting := false }, [])
  else
    let r := if s.localStream then (s, []) else getMediaWithErrorHandling s mediaOutcome
    ({ r.1 with connectionError := none, callStatus := CallStatus.connected,
                isReconnecting := false }, r.2)

/-- The RTCPeerConnection transport states observed by the handlers. -/
inductive ConnState where
  | fresh | connecting | connected | disconnected | failed | closed
deriving DecidableEq

/-- Handler `pc.onconnectionstatechange`: connected clears the error, disconnected
triggers `handleReconnection` (the session is never ended here), failed
and closed only set status fields. -/
def onConnectionStateChange (s : VideoCallComp) (st : ConnState) : VideoCallComp × List CompEff :=
  match st with
  | .connected => ({ s with callStatus := CallStatus.connected, connectionError := none }, [])
  | .disconnected => handleReconnectionStart { s with callStatus := CallStatus.disconnected }
  | .failed =>
      ({ s with callStatus := CallStatus.failed,
                connectionError := some "Connection failed. Please check your network and try again." }, [])
  | .closed => ({ s with callStatus := CallStatus.idle }, [])
  | _ => (s, [])

/-- Handler `pc.oniceconnectionstatechange`: failed sets an error notice,
disconnected triggers `handleReconnection`. -/
def onIceConnectionStateChange (s : VideoCallComp) (st : ConnState) : VideoCallComp × List CompEff :=
  match st with
  | .failed =>
      ({ s with connectionError := some "Network connection failed. Please check your internet connection." }, [])
  | .disconnected => handleReconnectionStart s
  | _ => (s, [])

/-! ## Incoming ice-candidate handling (VideoCall.jsx, socket.on("iceCandidate"))

The handler calls `peerConnection.addIceCandidate(new RTCIceCandidate(c))`
immediately and unconditionally; a rejected promise (as happens when no
remote description has been applied yet) is caught and only sets
`connectionError`.  The component holds no candidate buffer of any kind,
and setting the remote description applies nothing further. -/

/-- The observable ICE state: whether a remote description has been
applied, and the candidates passed to `addIceCandidate`, in invocation
order. -/
structure IceState where
  remoteDescriptionSet : Bool
  addAttempts : List String
deriving DecidableEq

/-- Handler `handleIceCandidate`: immediately passes the candidate to
`addIceCandidate`, regardless of `remoteDescriptionSet`. -/
def handleIceCandidate (s : IceState) (candidate : String) : IceState :=
  { s with addAttempts := s.addAttempts ++ [candidate] }

/-- Applying the remote description (`pc.setRemoteDescription`): no stored
candidates exist to be flushed, so `addAttempts` is untouched. -/
def setRemoteDescriptionIce (s : IceState) : IceState :=
  { s with remoteDescriptionSet := true }

/-- Events that reach the ICE logic. -/
inductive IceEvent where
  | recv (candidate : String)
  | setRemote
deriving DecidableEq

/-- One ICE event. -/
def iceStep (s : IceState) : IceEvent → IceState
  | .recv c => handleIceCandidate s c
  | .setRemote => setRemoteDescriptionIce s

/-- A sequence of ICE events. -/
def iceRun (s : IceState) (es : List IceEvent) : IceState :=
  es.foldl iceStep s

/-- The candidates received over the wire, in receipt order. -/
def receivedCandidates (es : List IceEvent) : List String :=
  es.filterMap (fun e => match e with | .recv c => some c | .setRemote => none)

/-! ## Component teardown and the mounted client -/

/-- Function `handleEndCall` in VideoCall.jsx: stops every local track, closes the
peer connection, clears the reconnect timeout and stats interval, resets
the component states, and runs the store `endCall` action. -/
def handleEndCallComp (comp : VideoCallComp) (st : AuthStore) :
    (VideoCallComp × AuthStore) × List Eff :=
  let comp1 : VideoCallComp :=
    { comp with localStream := false, peerConnection := false,
                reconnectTimeoutPending := false, statsIntervalRunning := false,
                mediaError := none, connectionError := none, socketError := none,
                callStatus := CallStatus.idle, permissionDenied := false,
                retryAttempts := 0, isReconnecting := false }
  let r := AuthStore.endCall st
  ((comp1, r.1), r.2)

/-- The Decline button of the incoming-call UI: `rejectCall()` then
`handleEndCall()`. -/
def declineIncoming (comp : VideoCallComp) (st : AuthStore) :
    (VideoCallComp × AuthStore) × List Eff :=
  let r1 := AuthStore.rejectCall st
  let r2 := handleEndCallComp comp r1.1
  (r2.1, r1.2 ++ r2.2)

/-- A client as the callee sees it: the store plus the VideoCall
component, which is mounted (`some`) exactly while HomePage renders it. -/
structure CalleeClient where
  store : AuthStore
  comp : Option VideoCallComp

/-- Reconcile the HomePage render condition with the mounted component:
mounting runs the VideoCall mount effect, whose body is
`getMediaWithErrorHandling()` (`mediaOutcome` is that attempt's result).
Unmounting drops the component. -/
def syncRender (c : CalleeClient) (mediaOutcome : Option MediaErrName) : CalleeClient :=
  match c.comp with
  | none =>
      if videoCallRendered c.store then
        { c with comp := some (getMediaWithErrorHandling initComp mediaOutcome).1 }
      else c
  | some _ =>
      if videoCallRendered c.store then c
      else { c with comp := none }

/-- A `callUser` wire message arriving at an idle callee: the store
handler records the invite (entering the ringing UI), HomePage mounts
VideoCall, and the mount effect acquires media. -/
def recvInvite (c : CalleeClient) (fromId name signal : String)
    (mediaOutcome : Option MediaErrName) : CalleeClient :=
  syncRender { c with store := AuthStore.onCallUser c.store fromId name signal } mediaOutcome

/-- The component state after a successful mount-time media acquisition. -/
def mediaReadyComp : VideoCallComp :=
  (getMediaWithErrorHandling initComp none).1

/-- A caller as ChatHeader sees it: the store plus the resources created
by `ChatHeader.handleCallUser` (an RTCPeerConnection and a temporary
stream). -/
structure CallerClient where
  store : AuthStore
  headerPcOpen : Bool
  headerStreamLive : Bool

/-- The success path of `ChatHeader.handleCallUser`: a fresh
RTCPeerConnection is created, a temporary stream is acquired and its
tracks added, an offer is created and set as the local description, the
store `callUser` action emits the invite and arms the 15 s timeout, and
the temporary stream tracks are stopped.  The peer connection is a local
variable that no code ever closes. -/
def handleCallUserHeader (c : CallerClient) (selectedUserId selectedUserName offer : String) :
    CallerClient × List Eff :=
  let r := AuthStore.callUser c.store selectedUserId offer selectedUserName
  ({ store := r.1, headerPcOpen := true, headerStreamLive := false }, r.2)

/-- A client in an accepted call: the store plus the mounted component.
The transport-state handlers run against the component only; they never
invoke any store action. -/
structure InCallClient where
  store : AuthStore
  comp : VideoCallComp

/-- An RTCPeerConnection transport-state event delivered to the client:
only `pc.onconnectionstatechange` runs; the store is untouched. -/
def transportEvent (c : InCallClient) (st : ConnState) : InCallClient × List CompEff :=
  let r := onConnectionStateChange c.comp st
  ({ c with comp := r.1 }, r.2)

/-- Whether the store regards a call session as accepted and live. -/
def sessionActive (s : AuthStore) : Bool :=
  s.callAccepted && !s.callEnded

/-! ## Concrete fixtures used by counterexamples and witnesses -/

/-- A logged-in, socket-connected store with no call in progress. -/
def idleStore : AuthStore :=
  { socket := true, authUser := some ("uidA", "Alice"), callAccepted := false,
    callEnded := false, caller := none, receivingCall := false, callSignal := none }

/-- A store mid-call (accepted, not ended) with the remote recorded. -/
def activeStore : AuthStore :=
  { socket := true, authUser := some ("uidA", "Alice"), callAccepted := true,
    callEnded := false, caller := some ⟨"uidB", "Bob"⟩, receivingCall := false,
    callSignal := some "answer" }

/-- An in-call client whose transport is currently healthy. -/
def inCallClient : InCallClient :=
  { store := activeStore,
    comp := { mediaReadyComp with peerConnection := true, statsIntervalRunning := true } }

/-- The caller after the full no-answer trace: `ChatHeader.handleCallUser`
runs from an idle logged-in client, the callee never answers, and the
15-second timeout body fires. -/
def callerAfterTimeout : CallerClient :=
  let c1 := (handleCallUserHeader
    { store := idleStore, headerPcOpen := false, headerStreamLive := false }
    "uidB" "Bob" "offer").1
  { c1 with store := (AuthStore.callTimeout c1.store).1 }

/-! ## Helper lemmas -/

/-- Object lookup after `delete`: the erased key reads as absent, every
other key is unaffected. -/
theorem mapLookup_mapErase (m : RegMap) (k u : String) :
    mapLookup (mapErase m k) u = if k = u then none else mapLookup m u := by
  induction m with
  | nil => simp [mapErase, mapLookup]
  | cons p rest ih =>
      obtain ⟨a, b⟩ := p
      simp only [mapErase, mapLookup]
      by_cases hak : a = k <;> by_cases hku : k = u <;> simp_all [mapLookup]

/-- Object lookup after assignment: the assigned key reads the new value,
every other key is unaffected. -/
theorem mapLookup_mapInsert (m : RegMap) (k v u : String) :
    mapLookup (mapInsert m k v) u = if k = u then some v else mapLookup m u := by
  simp only [mapInsert, mapLookup, mapLookup_mapErase]
  by_cases h : k = u <;> simp [h]

/-- One presence event changes the lookup of `u` exactly as the
most-recent-event step function predicts. -/
theorem applyPresence_lookup (m : RegMap) (e : PresenceEvent) (u : String) :
    mapLookup (applyPresence m e) u = presenceStep u (mapLookup m u) e := by
  cases e with
  | connect uid sid =>
      cases uid with
      | none => rfl
      | some v => simp [applyPresence, presenceStep, mapLookup_mapInsert]
  | disconnect uid =>
      cases uid with
      | none => simp [applyPresence, presenceStep, mapLookup_mapErase]
      | some v => simp [applyPresence, presenceStep, mapLookup_mapErase]

/-- Registry lookup after any event sequence equals the most-recent-event
prediction, generalized over the starting map. -/
theorem runPresence_lookup (es : List PresenceEvent) (m : RegMap) (u : String) :
    mapLookup (runPresence m es) u = recentLookup u es (mapLookup m u) := by
  induction es generalizing m with
  | nil => rfl
  | cons e es ih =>
      show mapLookup (runPresence (applyPresence m e) es) u
        = recentLookup u es (presenceStep u (mapLookup m u) e)
      rw [ih, applyPresence_lookup]

/-- Every ICE event sequence appends exactly the received candidates, in
receipt order, to the attempts already made. -/
theorem iceRun_addAttempts (es : List IceEvent) (s : IceState) :
    (iceRun s es).addAttempts = s.addAttempts ++ receivedCandidates es := by
  induction es generalizing s with
  | nil => simp [iceRun, receivedCandidates]
  | cons e es ih =>
      cases e with
      | recv c =>
          show (iceRun (handleIceCandidate s c) es).addAttempts = _
          rw [ih]
          simp [handleIceCandidate, receivedCandidates]
      | setRemote =>
          show (iceRun (setRemoteDescriptionIce s) es).addAttempts = _
          rw [ih]
          simp [setRemoteDescriptionIce, receivedCandidates]

/-! ## Claim theorems -/

/-- Claim C1 (amended): for every sequence of register/unregister events,
lookup of an identity returns the socket id from its most recent register
event, or absent if the most recent event affecting that identity was an
unregister; in particular a later register overwrites the earlier
endpoint (last-connect-wins).  The unregister performed on disconnect is
keyed by the identity captured at connection time, so a disconnect of an
identity's superseded old endpoint also removes the newer mapping. -/
theorem C1_registry_recent_register (es : List PresenceEvent) (u : String) :
    mapLookup (runPresence [] es) u = recentLookup u es none :=
  runPresence_lookup es [] u

/-- Claim C1 counterexample: after register(U, S1), register(U, S2),
then the disconnect of the superseded old endpoint S1 (which carries U as
its handshake identity), the registry maps U to nothing — the newer
mapping S2 is not left intact as the claim states. -/
theorem C1_counterexample :
    mapLookup (runPresence []
      [PresenceEvent.connect (some "U") "S1",
       PresenceEvent.connect (some "U") "S2",
       PresenceEvent.disconnect (some "U")]) "U" = none
    ∧ (none : Option String) ≠ some "S2" := by
  decide

/-- Claim C2 (amended): when the 15-second answer timeout armed by
`callUser` fires while the call is neither accepted nor ended, the
caller's session transitions to ended with the user-visible notice
"Call not answered" — and, contrary to the original claim, a further
wire message is sent: `endCall` toward the callee recorded in
`caller.from`. -/
theorem C2_timeout_no_answer (s : AuthStore) (utc sig nm uid uname : String)
    (hauth : s.authUser = some (uid, uname)) (hsock : s.socket = true)
    (hacc : s.callAccepted = false) (hend : s.callEnded = false) :
    (AuthStore.callUser s utc sig nm).2
      = [Eff.emit (WireOut.callUser utc sig uid uname), Eff.schedule 15000]
    ∧ (AuthStore.callTimeout (AuthStore.callUser s utc sig nm).1).1.callEnded = true
    ∧ (AuthStore.callTimeout (AuthStore.callUser s utc sig nm).1).1.callAccepted = false
    ∧ (AuthStore.callTimeout (AuthStore.callUser s utc sig nm).1).2
      = [Eff.toast "Call not answered", Eff.emit (WireOut.endCall utc)] := by
  simp [AuthStore.callUser, AuthStore.callTimeout, AuthStore.endCall,
        hauth, hsock, hacc, hend]

/-- Claim C2 witness: the amended timeout behavior at a concrete caller. -/
theorem C2_witness :
    (AuthStore.callUser idleStore "uidB" "offer" "Bob").2
      = [Eff.emit (WireOut.callUser "uidB" "offer" "uidA" "Alice"), Eff.schedule 15000]
    ∧ (AuthStore.callTimeout (AuthStore.callUser idleStore "uidB" "offer" "Bob").1).1.callEnded = true
    ∧ (AuthStore.callTimeout (AuthStore.callUser idleStore "uidB" "offer" "Bob").1).1.callAccepted = false
    ∧ (AuthStore.callTimeout (AuthStore.callUser idleStore "uidB" "offer" "Bob").1).2
      = [Eff.toast "Call not answered", Eff.emit (WireOut.endCall "uidB")] :=
  C2_timeout_no_answer idleStore "uidB" "offer" "Bob" "uidA" "Alice" rfl rfl rfl rfl

/-- Claim C2 counterexample: at a concrete unanswered call, the timeout
body ends the session but also emits an `endCall` wire message toward
the callee, contradicting "no further wire message is sent". -/
theorem C2_counterexample :
    (AuthStore.callTimeout (AuthStore.callUser idleStore "uidB" "offer" "Bob").1).1.callEnded = true
    ∧ Eff.emit (WireOut.endCall "uidB")
        ∈ (AuthStore.callTimeout (AuthStore.callUser idleStore "uidB" "offer" "Bob").1).2 := by
  decide

/-- Claim C3 (amended): every `ice-candidate` envelope is passed to
`addIceCandidate` immediately on receipt, in receipt order, regardless of
whether a remote description has been applied; no `pendingCandidates`
buffer exists, and setting the remote description applies nothing
further (a pre-remote-description rejection is merely caught and
surfaced as a connection error). -/
theorem C3_candidates_applied_immediately (es : List IceEvent) :
    (iceRun { remoteDescriptionSet := false, addAttempts := [] } es).addAttempts
      = receivedCandidates es := by
  simp [iceRun_addAttempts]

/-- Claim C3 counterexample: a candidate received before any remote
description is passed to `addIceCandidate` at once — it is not buffered
for later application as the claim states. -/
theorem C3_counterexample :
    (handleIceCandidate { remoteDescriptionSet := false, addAttempts := [] } "cand1").addAttempts
      = ["cand1"]
    ∧ ¬ (handleIceCandidate { remoteDescriptionSet := false, addAttempts := [] } "cand1").addAttempts
      = [] := by
  decide

/-- Claim C4 (amended): an incoming call-invite mounts the VideoCall
component while the callee is merely ringing, and the mount effect
acquires local media immediately — before any accept.  A decline from
ringing sends `call-reject` and reaches ended, stopping the media that
had already been acquired. -/
theorem C4_media_acquired_while_ringing (st : AuthStore) (f n sig : String)
    (hsock : st.socket = true) :
    (recvInvite { store := st, comp := none } f n sig none).store.receivingCall = true
    ∧ (recvInvite { store := st, comp := none } f n sig none).store.callAccepted = false
    ∧ (recvInvite { store := st, comp := none } f n sig none).comp = some mediaReadyComp
    ∧ mediaReadyComp.localStream = true
    ∧ (declineIncoming mediaReadyComp
        (recvInvite { store := st, comp := none } f n sig none).store).1.2.callEnded = true
    ∧ (declineIncoming mediaReadyComp
        (recvInvite { store := st, comp := none } f n sig none).store).1.1.localStream = false
    ∧ (declineIncoming mediaReadyComp
        (recvInvite { store := st, comp := none } f n sig none).store).2
      = [Eff.emit (WireOut.rejectCall f)] := by
  simp [recvInvite, syncRender, videoCallRendered, AuthStore.onCallUser, declineIncoming,
        AuthStore.rejectCall, handleEndCallComp, AuthStore.endCall, hsock, mediaReadyComp,
        getMediaWithErrorHandling, initComp]

/-- Claim C4 witness: the amended ringing/media behavior at a concrete
idle callee. -/
theorem C4_witness :
    (recvInvite { store := idleStore, comp := none } "uidB" "Bob" "offer" none).store.receivingCall = true
    ∧ (recvInvite { store := idleStore, comp := none } "uidB" "Bob" "offer" none).store.callAccepted = false
    ∧ (recvInvite { store := idleStore, comp := none } "uidB" "Bob" "offer" none).comp = some mediaReadyComp
    ∧ mediaReadyComp.localStream = true
    ∧ (declineIncoming mediaReadyComp
        (recvInvite { store := idleStore, comp := none } "uidB" "Bob" "offer" none).store).1.2.callEnded = true
    ∧ (declineIncoming mediaReadyComp
        (recvInvite { store := idleStore, comp := none } "uidB" "Bob" "offer" none).store).1.1.localStream = false
    ∧ (declineIncoming mediaReadyComp
        (recvInvite { store := idleStore, comp := none } "uidB" "Bob" "offer" none).store).2
      = [Eff.emit (WireOut.rejectCall "uidB")] :=
  C4_media_acquired_while_ringing idleStore "uidB" "Bob" "offer" rfl

/-- Claim C4 counterexample: at a concrete idle callee receiving an
invite, local media is already acquired while the session is merely
ringing (receivingCall true, callAccepted false) — device capture is not
deferred to the accept. -/
theorem C4_counterexample :
    (recvInvite { store := idleStore, comp := none } "uidC" "Carol" "offerC" none).store.receivingCall
      = true
    ∧ (recvInvite { store := idleStore, comp := none } "uidC" "Carol" "offerC" none).store.callAccepted
      = false
    ∧ (recvInvite { store := idleStore, comp := none } "uidC" "Carol" "offerC" none).comp.map
        VideoCallComp.localStream = some true := by
  decide

/-- Claim C5 (amended): routing a `callUser` envelope whose target is
absent from the registry forwards nothing and produces exactly one
`callFailed` envelope back to the sender socket — with reason
"User is offline", not "offline"; when the target is present the
envelope's signal, sender and name are forwarded to the target's
socket. -/
theorem C5_route_invite (m : RegMap) (sid utc sig f n : String) :
    (mapLookup m utc = none →
      route m sid (SrvIn.callUser utc sig f n) = [(sid, SrvOut.callFailed "User is offline")])
    ∧ (∀ t, mapLookup m utc = some t →
      route m sid (SrvIn.callUser utc sig f n) = [(t, SrvOut.callUser sig f n)]) := by
  constructor
  · intro h; simp [route, h]
  · intro t h; simp [route, h]

/-- Claim C5 witness: the offline and online invite routes at concrete
registries. -/
theorem C5_witness :
    route [] "s1" (SrvIn.callUser "uidB" "offer" "uidA" "Alice")
      = [("s1", SrvOut.callFailed "User is offline")]
    ∧ route [("uidB", "sB")] "s1" (SrvIn.callUser "uidB" "offer" "uidA" "Alice")
      = [("sB", SrvOut.callUser "offer" "uidA" "Alice")] :=
  ⟨(C5_route_invite [] "s1" "uidB" "offer" "uidA" "Alice").1 (by decide),
   (C5_route_invite [("uidB", "sB")] "s1" "uidB" "offer" "uidA" "Alice").2 "sB" (by decide)⟩

/-- Claim C5 counterexample: the failure envelope produced for an offline
target carries the reason string "User is offline", not "offline" as the
claim states. -/
theorem C5_counterexample :
    route [] "s0" (SrvIn.callUser "uidB" "offer" "uidA" "Alice")
      = [("s0", SrvOut.callFailed "User is offline")]
    ∧ route [] "s0" (SrvIn.callUser "uidB" "offer" "uidA" "Alice")
      ≠ [("s0", SrvOut.callFailed "offline")] := by
  decide

/-- Claim C6: a transport transition to disconnected during an accepted
call never ends the session: the store is untouched, no end effect is
produced, and the handler enters a reconnection attempt consisting of a
single fixed 2000 ms wait before re-checking the socket and local media;
a disconnected-then-connected sequence within that window leaves the
session active with status connected. -/
theorem C6_disconnected_then_connected (c : InCallClient)
    (hact : sessionActive c.store = true) (hrec : c.comp.isReconnecting = false) :
    (transportEvent c ConnState.disconnected).2 = [CompEff.wait 2000]
    ∧ CompEff.endTheCall ∉ (transportEvent c ConnState.disconnected).2
    ∧ (transportEvent c ConnState.disconnected).1.store = c.store
    ∧ (transportEvent c ConnState.disconnected).1.comp.callStatus = CallStatus.disconnected
    ∧ (transportEvent (transportEvent c ConnState.disconnected).1 ConnState.connected).1.store
      = c.store
    ∧ sessionActive
        (transportEvent (transportEvent c ConnState.disconnected).1 ConnState.connected).1.store
      = true
    ∧ (transportEvent (transportEvent c ConnState.disconnected).1 ConnState.connected).1.comp.callStatus
      = CallStatus.connected
    ∧ (transportEvent (transportEvent c ConnState.disconnected).1 ConnState.connected).1.comp.connectionError
      = none
    ∧ (handleReconnectionResume (transportEvent c ConnState.disconnected).1.comp true none).1.callStatus
      = CallStatus.connected
    ∧ (handleReconnectionResume (transportEvent c ConnState.disconnected).1.comp true none).1.isReconnecting
      = false := by
  simp [transportEvent, onConnectionStateChange, handleReconnectionStart, hrec,
        handleReconnectionResume, sessionActive, getMediaWithErrorHandling]
  simpa [sessionActive] using hact

/-- Claim C6 witness: the disconnect/reconnect behavior at a concrete
in-call client. -/
theorem C6_witness :
    (transportEvent inCallClient ConnState.disconnected).2 = [CompEff.wait 2000]
    ∧ CompEff.endTheCall ∉ (transportEvent inCallClient ConnState.disconnected).2
    ∧ (transportEvent inCallClient ConnState.disconnected).1.store = inCallClient.store
    ∧ (transportEvent inCallClient ConnState.disconnected).1.comp.callStatus
      = CallStatus.disconnected
    ∧ (transportEvent (transportEvent inCallClient ConnState.disconnected).1 ConnState.connected).1.store
      = inCallClient.store
    ∧ sessionActive
        (transportEvent (transportEvent inCallClient ConnState.disconnected).1 ConnState.connected).1.store
      = true
    ∧ (transportEvent (transportEvent inCallClient ConnState.disconnected).1 ConnState.connected).1.comp.callStatus
      = CallStatus.connected
    ∧ (transportEvent (transportEvent inCallClient ConnState.disconnected).1 ConnState.connected).1.comp.connectionError
      = none
    ∧ (handleReconnectionResume (transportEvent inCallClient ConnState.disconnected).1.comp true none).1.callStatus
      = CallStatus.connected
    ∧ (handleReconnectionResume (transportEvent inCallClient ConnState.disconnected).1.comp true none).1.isReconnecting
      = false :=
  C6_disconnected_then_connected inCallClient rfl rfl

/-- Claim C7, evaluated at the failing input: a caller invites uidB
(ChatHeader.handleCallUser creates an RTCPeerConnection), the callee
never answers, and the 15-second timeout fires.  The session reaches
ended, yet the peer connection is still open: the VideoCall component is
never mounted for an unanswered caller (so no unmount cleanup runs) and
the store endCall action closes nothing. -/
theorem C7_caller_timeout_leaves_transport_open :
    callerAfterTimeout.store.callEnded = true
    ∧ callerAfterTimeout.headerPcOpen = true
    ∧ videoCallRendered callerAfterTimeout.store = false
    ∧ videoCallRendered (handleCallUserHeader
        { store := idleStore, headerPcOpen := false, headerStreamLive := false }
        "uidB" "Bob" "offer").1.store = false := by
  decide

/-- Claim C8: handleMediaError classifies by cause — a permission-denied
error is terminal for the attempt (permissionDenied set, canRetry false,
no retry armed), while an overconstrained error arms a 1000 ms automatic
retry with the relaxed constraints exactly when fewer than
MAX_RETRY_ATTEMPTS = 3 attempts have occurred, and is terminal
(canRetry false, nothing armed) once the bound is reached; each armed
retry increments the attempt counter. -/
theorem C8_media_error_classification (s : VideoCallComp) :
    MAX_RETRY_ATTEMPTS = 3
    ∧ (handleMediaError s MediaErrName.NotAllowedError).2 = []
    ∧ (handleMediaError s MediaErrName.NotAllowedError).1.permissionDenied = true
    ∧ (handleMediaError s MediaErrName.NotAllowedError).1.mediaError.map MediaErrorInfo.canRetry
      = some false
    ∧ (handleMediaError s MediaErrName.PermissionDeniedError).2 = []
    ∧ (s.retryAttempts < MAX_RETRY_ATTEMPTS →
        (handleMediaError s MediaErrName.OverconstrainedError).2
          = [CompEff.scheduleRetry 1000 MediaConstraints.relaxed])
    ∧ (MAX_RETRY_ATTEMPTS ≤ s.retryAttempts →
        (handleMediaError s MediaErrName.OverconstrainedError).2 = []
        ∧ (handleMediaError s MediaErrName.OverconstrainedError).1.mediaError.map
            MediaErrorInfo.canRetry = some false)
    ∧ (runRetryCallback s).retryAttempts = s.retryAttempts + 1 := by
  refine ⟨rfl, rfl, rfl, rfl, rfl, ?_, ?_, rfl⟩
  · intro h; simp [handleMediaError, h]
  · intro h
    have hnl : ¬ s.retryAttempts < MAX_RETRY_ATTEMPTS := Nat.not_lt.mpr h
    simp [handleMediaError, hnl]

/-- Claim C8 witness: the retry is armed at zero prior attempts and
suppressed at three. -/
theorem C8_witness :
    (handleMediaError initComp MediaErrName.OverconstrainedError).2
      = [CompEff.scheduleRetry 1000 MediaConstraints.relaxed]
    ∧ (handleMediaError { initComp with retryAttempts := 3 } MediaErrName.OverconstrainedError).2
      = [] := by
  have h1 := C8_media_error_classification initComp
  have h2 := C8_media_error_classification { initComp with retryAttempts := 3 }
  exact ⟨h1.2.2.2.2.2.1 (by decide), (h2.2.2.2.2.2.2.1 (by decide)).1⟩

/-- Claim C9: for every answerCall, iceCandidate, endCall or rejectCall
message whose target is absent from the registry, the relay emits
nothing at all — no forward and no error back to the sender. -/
theorem C9_offline_targets_silently_dropped (m : RegMap) (sid t sig c : String)
    (h : mapLookup m t = none) :
    route m sid (SrvIn.answerCall t sig) = []
    ∧ route m sid (SrvIn.iceCandidate t c) = []
    ∧ route m sid (SrvIn.endCall t) = []
    ∧ route m sid (SrvIn.rejectCall t) = [] := by
  refine ⟨?_, ?_, ?_, ?_⟩ <;> simp [route, h]

/-- Claim C9 witness: all four non-invite routes drop silently at a
concrete empty registry. -/
theorem C9_witness :
    route [] "s1" (SrvIn.answerCall "uidB" "ans") = []
    ∧ route [] "s1" (SrvIn.iceCandidate "uidB" "cand") = []
    ∧ route [] "s1" (SrvIn.endCall "uidB") = []
    ∧ route [] "s1" (SrvIn.rejectCall "uidB") = [] :=
  C9_offline_targets_silently_dropped [] "s1" "uidB" "ans" "cand" rfl

/-- Claim C10: answerCall with no caller recorded (caller.from absent) is
a complete no-op — the store is returned unchanged, field for field, and
nothing is emitted. -/
theorem C10_answerCall_noop_without_caller (s : AuthStore) (signal : String)
    (h : s.caller = none) :
    AuthStore.answerCall s signal = (s, []) := by
  simp [AuthStore.answerCall, h]

/-- Claim C10 witness: answerCall at a concrete caller-less store. -/
theorem C10_witness : AuthStore.answerCall idleStore "ans" = (idleStore, []) :=
  C10_answerCall_noop_without_caller idleStore "ans" rfl

end ChatVC
